import Mathlib

/-!
Shallow embedding of `src/prediction/predictor_model.py` from the
`rt_forecasting_darts_catboost` repository: a thin adapter (`Forecaster`)
around the darts `CatBoostModel`, plus free functions for persistence.

Modelling conventions:
* A pandas `DataFrame` is a list of rows; a row is an association list from
  column name to an integer cell value (cell contents are opaque to the
  adapter, so `Int` suffices).  Looking up a missing column yields a default
  value `0` (the adapter never relies on missing-column errors in any
  property below).
* `history.groupby(id_col)` follows pandas semantics with the default
  `sort=True`: the group keys (`.groups.keys()`) are the distinct id values
  in ascending order, and `get_group` keeps each group's rows in their
  original order.
* Python exceptions are modelled with `Except String`; a mutating method
  returns its post-state paired with the `Except` result, so that mutations
  performed before an exception is raised are preserved (as in Python).
* The external darts `CatBoostModel.predict` is not repository code; it is
  represented by an opaque function field `predictFn` carried by the
  embedded `CatBoostModel`.  Its documented contract (one forecast per
  input series, each of the requested length) is stated separately as
  `PredictContract` and assumed as a hypothesis where needed.
* `joblib.dump`/`joblib.load` are modelled as a faithful store/retrieve of
  the `Forecaster` value in an explicit file-system state.
* `np.random.seed(...)` in `fit` is a global-RNG side effect with no
  bearing on any property below and is not modelled; likewise the darts
  `TimeSeries` time index (the code drops/ignores the time column via
  `reset_index`, and only column values matter here).
-/

namespace PredictorModel

/-- A cell row: association list from column name to cell value. -/
abbrev Row := List (String × Int)

/-- A pandas DataFrame: a list of rows. -/
abbrev DataFrame := List Row

/-- Cell lookup (first matching column); missing columns default to `0`. -/
def getCell (r : Row) (c : String) : Int :=
  match r with
  | [] => 0
  | p :: rest => if p.1 = c then p.2 else getCell rest c

/-- `df.drop(columns=c)` applied to one row. -/
def dropCol (r : Row) (c : String) : Row :=
  r.filter (fun p => decide (p.1 ≠ c))

/-- The values of one column down a dataframe. -/
def colValues (df : DataFrame) (c : String) : List Int :=
  df.map (fun r => getCell r c)

/-- `ForecastingSchema`: the fields of the external schema descriptor that
the adapter reads (id column, time column, target, covariate lists, and the
declared forecast horizon). -/
structure ForecastingSchema where
  id_col : String
  time_col : String
  target : String
  past_covariates : List String
  future_covariates : List String
  forecast_length : Nat
  deriving Repr, DecidableEq

/-- The keys of `history.groupby(id_col).groups`: distinct id values in
ascending order (pandas groupby with default `sort=True`). -/
def groupKeys (df : DataFrame) (idc : String) : List Int :=
  ((df.map (fun r => getCell r idc)).dedup).insertionSort (fun a b => a ≤ b)

/-- `groupby(idc).get_group(v)`: the rows with id `v`, in original order. -/
def getGroup (df : DataFrame) (idc : String) (v : Int) : DataFrame :=
  df.filter (fun r => decide (getCell r idc = v))

/-- The distinct id values of a dataframe in order of first appearance
(what the spec calls the series order; used to compare against the code). -/
def firstAppearance (l : List Int) : List Int :=
  l.foldl (fun acc x => if acc.contains x then acc else acc ++ [x]) []

/-- Lag configuration value: the Python argument is `int | list[int]`
(absence is `Option.none` at the use sites). -/
inductive LagVal
  | int (n : Int)
  | list (l : List Int)
  deriving Repr, DecidableEq

/-- Future-covariate lag configuration: `tuple[int, int] | list[int]`. -/
inductive FutLagVal
  | tuple (p f : Int)
  | list (l : List Int)
  deriving Repr, DecidableEq

/-- A univariate target sequence (the values of the target column of one
series, in row order). -/
abbrev TargetSeries := List Int

/-- A covariate sequence: per row, the values of the selected covariate
columns. -/
abbrev CovSeries := List (List Int)

/-- The type of the external darts `CatBoostModel.predict`:
horizon, retained target series, retained past / future covariates →
one forecast (list of per-step values) per input series. -/
abbrev PredictFn :=
  Nat → List TargetSeries → Option (List CovSeries) → Option (List CovSeries) →
    List TargetSeries

/-- The documented darts contract for `predict(n, series=...)`: one output
series per input series, each of length `n`. -/
def PredictContract (pf : PredictFn) : Prop :=
  ∀ n ts pc fcv,
    (pf n ts pc fcv).length = ts.length ∧ ∀ o ∈ pf n ts pc fcv, o.length = n

/-- Embedded darts `CatBoostModel`: the constructor arguments the adapter
passes (its internal boosted-tree state is outside this repository and is
abstracted into `predictFn`). -/
structure CatBoostModel where
  lags : Option LagVal
  lags_past_covariates : Option LagVal
  lags_future_covariates : Option FutLagVal
  output_chunk_length : Option Int
  likelihood : Option String
  quantiles : Option (List Rat)
  use_static_covariates : Bool
  random_state : Option Int
  multi_models : Option Bool
  predictFn : PredictFn

/-- The `Forecaster` adapter: constructor configuration, the wrapped model,
and post-fit state.  `all_ids`, `targets_series`, `past_covariates` and
`future_covariates` are `none` until the corresponding Python attribute is
first assigned. -/
structure Forecaster where
  data_schema : ForecastingSchema
  lags : Option LagVal
  lags_past_covariates : Option LagVal
  lags_future_covariates : Option FutLagVal
  output_chunk_length : Option Int
  likelihood : Option String
  quantiles : Option (List Rat)
  use_static_covariates : Bool
  multi_models : Option Bool
  random_state : Option Int
  _is_trained : Bool
  history_length : Option Int
  model : CatBoostModel
  all_ids : Option (List Int)
  targets_series : Option (List TargetSeries)
  past_covariates : Option (List CovSeries)
  future_covariates : Option (List CovSeries)

/-- `Forecaster.__init__`.  `predictImpl` stands for the external CatBoost
library implementation wired into the constructed `CatBoostModel`;
`history_length_kw` is `kwargs.get("history_length")` (the only kwarg the
adapter itself consumes; Python truthiness makes `0` equivalent to absent). -/
def Forecaster.init (predictImpl : PredictFn) (data_schema : ForecastingSchema)
    (lags lags_past_covariates : Option LagVal)
    (lags_future_covariates : Option FutLagVal)
    (output_chunk_length : Option Int) (likelihood : Option String)
    (quantiles : Option (List Rat)) (multi_models : Option Bool)
    (use_static_covariates : Bool) (random_state : Option Int)
    (history_length_kw : Option Int) : Forecaster :=
  let lpc := if data_schema.past_covariates = [] then none
             else lags_past_covariates
  let lfc := if data_schema.future_covariates = [] then none
             else lags_future_covariates
  let hl : Option Int :=
    match history_length_kw with
    | some n => if n = 0 then none else some n
    | none => none
  { data_schema := data_schema
    lags := lags
    lags_past_covariates := lpc
    lags_future_covariates := lfc
    output_chunk_length := output_chunk_length
    likelihood := likelihood
    quantiles := quantiles
    use_static_covariates := use_static_covariates
    multi_models := multi_models
    random_state := random_state
    _is_trained := false
    history_length := hl
    model :=
      { lags := lags
        lags_past_covariates := lpc
        lags_future_covariates := lfc
        output_chunk_length := output_chunk_length
        likelihood := likelihood
        quantiles := quantiles
        use_static_covariates := use_static_covariates
        random_state := random_state
        multi_models := multi_models
        predictFn := predictImpl }
    all_ids := none
    targets_series := none
    past_covariates := none
    future_covariates := none }

/-- Error message of `raise NotFittedError("Model is not fitted yet.")`. -/
def notFittedMsg : String := "Model is not fitted yet."

/-- Error message of the pandas length check on `df[col] = values`. -/
def lengthErrorMsg : String :=
  "ValueError: Length of values does not match length of index"

/-- Error raised by `s.iloc[-self.history_length:]` when
`self.history_length` is `None` (unary minus on `None`). -/
def typeErrorMsg : String := "TypeError: bad operand type for unary -: NoneType"

/-- Error raised by `test_dataframe.groupby(...)` when `test_dataframe` is
`None`. -/
def attrErrorMsg : String :=
  "AttributeError: NoneType object has no attribute groupby"

/-- Error raised by `get_group` on an id absent from the test dataframe. -/
def keyErrorMsg : String := "KeyError"

/-- Error raised when the persisted blob is not found. -/
def fileNotFoundMsg : String := "FileNotFoundError"

/-- Python truthiness of the `history_length` value (an `int` or `None`):
`None` and `0` are falsy. -/
def truthy : Option Int → Bool
  | some n => n != 0
  | none => false

/-- `l[-m:]` (the slice `s.iloc[-m:]` on rows): for `m > 0` the last `m`
rows (the whole list when shorter), for `m ≤ 0` the slice `l[(-m):]`. -/
def ilocFromNeg {α : Type} (l : List α) (m : Int) : List α :=
  if 0 < m then l.drop (l.length - m.toNat) else l.drop (-m).toNat

/-- The per-series truncation step of `_prepare_data`: the guard tests the
`history_length` *parameter* for truthiness, but the slice amount is the
`self.history_length` *attribute* (`s.iloc[-self.history_length:]`), so a
truthy parameter with an unset attribute raises a `TypeError`. -/
def truncToHistory (fc : Forecaster) (history_length : Option Int)
    (s : DataFrame) : Except String DataFrame :=
  if truthy history_length then
    match fc.history_length with
    | none => .error typeErrorMsg
    | some m => .ok (ilocFromNeg s m)
  else .ok s

/-- Sequential effectful map: the Python `for` loop over series, stopping
at the first raised exception. -/
def mapExcept {α β : Type} (f : α → Except String β) :
    List α → Except String (List β)
  | [] => .ok []
  | x :: xs =>
    match f x with
    | .error e => .error e
    | .ok y =>
      match mapExcept f xs with
      | .error e => .error e
      | .ok ys => .ok (y :: ys)

/-- `all_series` of `_prepare_data`: one per-series dataframe (id column
dropped) per group key, in group-key order. -/
def seriesGroups (history : DataFrame) (idc : String) : List DataFrame :=
  (groupKeys history idc).map
    (fun i => (getGroup history idc i).map (fun r => dropCol r idc))

/-- The future-covariates block of `_prepare_data` (lines 170-189): when the
schema declares future covariates, requires `test_dataframe` (an absent one
raises), regroups the test rows by the training ids (`get_group` raises on a
missing id), truncates train and test rows with the same guarded slice, and
concatenates each series' train+test future-covariate rows. -/
def futurePart (fc : Forecaster) (data_schema : ForecastingSchema)
    (history_length : Option Int) (all_ids : List Int)
    (all_series : List DataFrame) (test_dataframe : Option DataFrame) :
    Except String (List CovSeries) :=
  if data_schema.future_covariates = [] then .ok []
  else
    match test_dataframe with
    | none => .error attrErrorMsg
    | some test_df =>
      match mapExcept (fun i =>
          if (test_df.map (fun r => getCell r data_schema.id_col)).contains i
          then
            Except.ok ((getGroup test_df data_schema.id_col i).map
              (fun r => dropCol r data_schema.id_col))
          else Except.error keyErrorMsg) all_ids with
      | .error e => .error e
      | .ok test_all_series =>
        mapExcept (fun p =>
          match truncToHistory fc history_length p.1,
                truncToHistory fc history_length p.2 with
          | .ok tr, .ok te =>
            .ok ((tr.map (fun r =>
                    data_schema.future_covariates.map (fun c => getCell r c)))
                 ++
                 (te.map (fun r =>
                    data_schema.future_covariates.map (fun c => getCell r c))))
          | .error e, _ => .error e
          | .ok _, .error e => .error e)
          (all_series.zip test_all_series)

/-- The value computed by `_prepare_data` (its per-series target loop, the
future-covariates block, and the final `if not past: past = None` /
`if not future: future = None` normalisation). -/
def prepareResult (fc : Forecaster) (history : DataFrame)
    (data_schema : ForecastingSchema) (history_length : Option Int)
    (test_dataframe : Option DataFrame) :
    Except String
      (List TargetSeries × Option (List CovSeries) × Option (List CovSeries)) :=
  match mapExcept (truncToHistory fc history_length)
      (seriesGroups history data_schema.id_col) with
  | .error e => .error e
  | .ok truncated =>
    let targets := truncated.map
      (fun s => s.map (fun r => getCell r data_schema.target))
    let past :=
      if data_schema.past_covariates = [] then []
      else truncated.map (fun s => s.map (fun r =>
        data_schema.past_covariates.map (fun c => getCell r c)))
    match futurePart fc data_schema history_length
        (groupKeys history data_schema.id_col)
        (seriesGroups history data_schema.id_col) test_dataframe with
    | .error e => .error e
    | .ok future =>
      .ok (targets,
           if past = [] then none else some past,
           if future = [] then none else some future)

/-- `Forecaster._prepare_data`.  Returns the post-state together with the
`(targets, past, future)` result: the method assigns `self.all_ids`
*before* any of its failure points, so the assignment survives an
exception and is part of the post-state either way. -/
def Forecaster._prepare_data (fc : Forecaster) (history : DataFrame)
    (data_schema : ForecastingSchema) (history_length : Option Int)
    (test_dataframe : Option DataFrame) :
    Forecaster ×
      Except String
        (List TargetSeries × Option (List CovSeries) × Option (List CovSeries)) :=
  ({ fc with all_ids := some (groupKeys history data_schema.id_col) },
   prepareResult fc history data_schema history_length test_dataframe)

/-- `Forecaster.fit`: prepares the data, delegates to `model.fit` (external;
its internal mutation is abstracted away), then marks the instance trained
and retains schema and prepared sequences.  On an exception the post-state
is the partially mutated instance (`all_ids` already assigned). -/
def Forecaster.fit (fc : Forecaster) (history : DataFrame)
    (data_schema : ForecastingSchema) (history_length : Option Int)
    (test_dataframe : Option DataFrame) : Forecaster × Except String Unit :=
  let fc1 :=
    (fc._prepare_data history data_schema history_length test_dataframe).1
  match (fc._prepare_data history data_schema history_length test_dataframe).2
      with
  | .error e => (fc1, .error e)
  | .ok (targets, past, future) =>
    ({ fc1 with
        _is_trained := true
        data_schema := data_schema
        targets_series := some targets
        past_covariates := past
        future_covariates := future }, .ok ())

/-- `df[c] = v` applied to one row: overwrite an existing column `c`, or
append it as a new last column. -/
def setCellCol (r : Row) (c : String) (v : Int) : Row :=
  if r.any (fun p => decide (p.1 = c)) then
    r.map (fun p => if p.1 = c then (c, v) else p)
  else r ++ [(c, v)]

/-- `df[c] = vals` (pandas column assignment): fails unless the value list
length matches the row count; otherwise writes one value per row in order. -/
def setCol (df : DataFrame) (c : String) (vals : List Int) :
    Option DataFrame :=
  if vals.length = df.length then
    some (List.zipWith (fun r v => setCellCol r c v) df vals)
  else none

/-- The flattened `prediction_values` list built by `Forecaster.predict`:
the wrapped model's forecasts over the retained series, concatenated in
series order. -/
def predictionValues (fc : Forecaster) : List Int :=
  (fc.model.predictFn fc.data_schema.forecast_length
    (fc.targets_series.getD []) fc.past_covariates
    fc.future_covariates).flatten

/-- `Forecaster.predict`: raises `NotFittedError` before fit; otherwise
forecasts `forecast_length` steps per retained series, flattens the values,
and writes them into `test_data` as `prediction_col_name`, returning the
mutated `test_data`.  The post-state of `test_data` is the first component
(unchanged on failure). -/
def Forecaster.predict (fc : Forecaster) (test_data : DataFrame)
    (prediction_col_name : String) : DataFrame × Except String DataFrame :=
  if fc._is_trained then
    match setCol test_data prediction_col_name (predictionValues fc) with
    | some df => (df, .ok df)
    | none => (test_data, .error lengthErrorMsg)
  else (test_data, .error notFittedMsg)

/-- `PREDICTOR_FILE_NAME`. -/
def PREDICTOR_FILE_NAME : String := "predictor.joblib"

/-- `os.path.join` for a directory and a file name. -/
def joinPath (d f : String) : String := d ++ "/" ++ f

/-- The file-system state persistence runs against: which directories
exist, and the serialized blob stored at each path (`joblib` round-trips
the `Forecaster` value faithfully, so a blob is the value itself). -/
structure FileSystem where
  dirs : String → Bool
  files : String → Option Forecaster

/-- `Forecaster.save`: raises `NotFittedError` before fit; otherwise dumps
the instance to `model_dir_path/predictor.joblib` (failing like
`joblib.dump` if the directory does not exist). -/
def Forecaster.save (fc : Forecaster) (model_dir_path : String)
    (fs : FileSystem) : FileSystem × Except String Unit :=
  if fc._is_trained then
    if fs.dirs model_dir_path then
      ({ fs with
          files := fun p =>
            if p = joinPath model_dir_path PREDICTOR_FILE_NAME then some fc
            else fs.files p }, .ok ())
    else (fs, .error fileNotFoundMsg)
  else (fs, .error notFittedMsg)

/-- `Forecaster.load`: reads the blob back from
`model_dir_path/predictor.joblib`. -/
def Forecaster.load (model_dir_path : String) (fs : FileSystem) :
    Except String Forecaster :=
  match fs.files (joinPath model_dir_path PREDICTOR_FILE_NAME) with
  | some m => .ok m
  | none => .error fileNotFoundMsg

/-- `save_predictor_model`: creates the directory when absent
(`os.makedirs`), then delegates to `Forecaster.save`. -/
def save_predictor_model (model : Forecaster) (predictor_dir_path : String)
    (fs : FileSystem) : FileSystem × Except String Unit :=
  let fs1 :=
    if fs.dirs predictor_dir_path then fs
    else { fs with
            dirs := fun d =>
              if d = predictor_dir_path then true else fs.dirs d }
  model.save predictor_dir_path fs1

/-- `load_predictor_model`: delegates to `Forecaster.load`. -/
def load_predictor_model (predictor_dir_path : String) (fs : FileSystem) :
    Except String Forecaster :=
  Forecaster.load predictor_dir_path fs

/-! Concrete instances used to evaluate the development on small inputs. -/

/-- A concrete external predict implementation satisfying the darts
contract: a zero forecast of the requested length per input series. -/
def zeroPF : PredictFn := fun n ts _ _ => ts.map (fun _ => List.replicate n 0)

/-- A schema with no covariates and horizon 3. -/
def wSchema : ForecastingSchema :=
  { id_col := "id", time_col := "t", target := "y",
    past_covariates := [], future_covariates := [], forecast_length := 3 }

/-- A history with two series, id 2 appearing before id 1. -/
def wHistory : DataFrame :=
  [[("id", 2), ("t", 0), ("y", 10)],
   [("id", 2), ("t", 1), ("y", 11)],
   [("id", 1), ("t", 0), ("y", 20)],
   [("id", 1), ("t", 1), ("y", 21)]]

/-- A freshly constructed (unfit) forecaster over `wSchema`. -/
def wFc : Forecaster :=
  Forecaster.init zeroPF wSchema none none (some (.tuple 5 1)) none none none
    (some true) true (some 0) none

/-- The result of fitting `wFc` on `wHistory`. -/
def wFit : Forecaster × Except String Unit :=
  wFc.fit wHistory wSchema none none

/-- The fit forecaster. -/
def wFcT : Forecaster := wFit.1

/-- A test dataframe with 2 series × horizon 3 = 6 rows. -/
def wTd6 : DataFrame :=
  [[("id", 1)], [("id", 1)], [("id", 1)], [("id", 2)], [("id", 2)],
   [("id", 2)]]

/-- A schema declaring one future covariate, horizon 2. -/
def wFutSchema : ForecastingSchema :=
  { id_col := "id", time_col := "t", target := "y",
    past_covariates := [], future_covariates := ["f"], forecast_length := 2 }

/-- A one-row history for `wFutSchema`. -/
def wFutHistory : DataFrame := [[("id", 1), ("t", 0), ("y", 5), ("f", 7)]]

/-- An unfit forecaster over `wFutSchema`. -/
def wFcFut : Forecaster :=
  Forecaster.init zeroPF wFutSchema none none (some (.tuple 5 1)) none none
    none (some true) true (some 0) none

/-- A forecaster constructed with `history_length=3` in its kwargs. -/
def wFcHL3 : Forecaster :=
  Forecaster.init zeroPF wSchema none none (some (.tuple 5 1)) none none none
    (some true) true (some 0) (some 3)

/-- A one-series history with 5 rows (target values 1..5). -/
def wHist5 : DataFrame :=
  [[("id", 1), ("t", 0), ("y", 1)],
   [("id", 1), ("t", 1), ("y", 2)],
   [("id", 1), ("t", 2), ("y", 3)],
   [("id", 1), ("t", 3), ("y", 4)],
   [("id", 1), ("t", 4), ("y", 5)]]

/-- The empty file-system state. -/
def emptyFS : FileSystem := { dirs := fun _ => false, files := fun _ => none }

/-! ## Helper lemmas -/

/-- `zeroPF` satisfies the darts predict contract. -/
theorem zeroPF_contract : PredictContract zeroPF := by
  intro n ts pc fcv
  constructor
  · simp [zeroPF]
  · intro o ho
    simp only [zeroPF, List.mem_map] at ho
    obtain ⟨_, _, rfl⟩ := ho
    exact List.length_replicate _ _

/-- A successful `mapExcept` preserves the list length. -/
theorem mapExcept_ok_length {α β : Type} (f : α → Except String β)
    (l : List α) (ys : List β) (h : mapExcept f l = .ok ys) :
    ys.length = l.length := by
  induction l generalizing ys with
  | nil =>
    simp only [mapExcept, Except.ok.injEq] at h
    subst h; rfl
  | cons x xs ih =>
    simp only [mapExcept] at h
    cases hfx : f x with
    | error e => rw [hfx] at h; exact absurd h (by simp)
    | ok y =>
      rw [hfx] at h
      cases hm : mapExcept f xs with
      | error e => rw [hm] at h; exact absurd h (by simp)
      | ok ys' =>
        rw [hm] at h
        simp only [Except.ok.injEq] at h
        subst h
        simp [ih ys' hm]

/-- `mapExcept` succeeds when every element succeeds. -/
theorem mapExcept_ok_of_forall {α β : Type} (f : α → Except String β)
    (l : List α) (h : ∀ a ∈ l, ∃ b, f a = .ok b) :
    ∃ ys, mapExcept f l = .ok ys := by
  induction l with
  | nil => exact ⟨[], rfl⟩
  | cons x xs ih =>
    obtain ⟨y, hy⟩ := h x (List.mem_cons_self x xs)
    obtain ⟨ys, hys⟩ := ih (fun a ha => h a (List.mem_cons_of_mem _ ha))
    exact ⟨y :: ys, by simp [mapExcept, hy, hys]⟩

/-- Flattening a list of lists of uniform length multiplies the lengths. -/
theorem flatten_const_length {α : Type} (L : List (List α)) (n : Nat)
    (h : ∀ x ∈ L, x.length = n) : L.flatten.length = L.length * n := by
  induction L with
  | nil => simp
  | cons x xs ih =>
    simp only [List.flatten_cons, List.length_append, List.length_cons]
    rw [h x (List.mem_cons_self _ _),
      ih (fun y hy => h y (List.mem_cons_of_mem _ hy))]
    ring

/-- The group-key list has one entry per distinct id value. -/
theorem groupKeys_length (df : DataFrame) (idc : String) :
    (groupKeys df idc).length =
      ((df.map (fun r => getCell r idc)).dedup).length :=
  (List.perm_insertionSort _ _).length_eq

theorem getCell_overwrite_self (r : Row) (c : String) (v : Int)
    (hany : r.any (fun p => decide (p.1 = c)) = true) :
    getCell (r.map (fun p => if p.1 = c then (c, v) else p)) c = v := by
  induction r with
  | nil => simp at hany
  | cons p r ih =>
    simp only [List.map_cons, getCell]
    by_cases hp : p.1 = c
    · rw [if_pos hp]
      simp
    · rw [if_neg hp, if_neg hp]
      exact ih (by simpa [hp] using hany)

theorem getCell_append_self (r : Row) (c : String) (v : Int)
    (hany : r.any (fun p => decide (p.1 = c)) = false) :
    getCell (r ++ [(c, v)]) c = v := by
  induction r with
  | nil => simp [getCell]
  | cons p r ih =>
    simp only [List.any_cons, Bool.or_eq_false_iff] at hany
    have hp : ¬p.1 = c := by simpa using hany.1
    simp only [List.cons_append, getCell]
    rw [if_neg hp]
    exact ih hany.2

/-- Setting column `c` makes the cell at `c` the assigned value. -/
theorem getCell_setCellCol_self (r : Row) (c : String) (v : Int) :
    getCell (setCellCol r c v) c = v := by
  unfold setCellCol
  by_cases hany : r.any (fun p => decide (p.1 = c))
  · rw [if_pos hany]; exact getCell_overwrite_self r c v hany
  · rw [if_neg hany]
    exact getCell_append_self r c v
      (by simp only [Bool.not_eq_true] at hany; exact hany)

theorem getCell_overwrite_ne (r : Row) (c c' : String) (v : Int)
    (hne : c' ≠ c) :
    getCell (r.map (fun p => if p.1 = c then (c, v) else p)) c' =
      getCell r c' := by
  induction r with
  | nil => rfl
  | cons p r ih =>
    simp only [List.map_cons, getCell]
    by_cases hp : p.1 = c
    · rw [if_pos hp]
      rw [if_neg (fun h => hne h.symm),
        if_neg (fun (h : p.1 = c') => hne (h ▸ hp))]
      exact ih
    · rw [if_neg hp]
      by_cases hp' : p.1 = c'
      · rw [if_pos hp', if_pos hp']
      · rw [if_neg hp', if_neg hp']
        exact ih

theorem getCell_append_ne (r : Row) (c c' : String) (v : Int)
    (hne : c' ≠ c) : getCell (r ++ [(c, v)]) c' = getCell r c' := by
  induction r with
  | nil =>
    simp only [List.nil_append, getCell]
    rw [if_neg (fun h => hne h.symm)]
  | cons p r ih =>
    simp only [List.cons_append, getCell]
    by_cases hp' : p.1 = c'
    · rw [if_pos hp', if_pos hp']
    · rw [if_neg hp', if_neg hp']
      exact ih

/-- Setting column `c` leaves every other column's cell unchanged. -/
theorem getCell_setCellCol_ne (r : Row) (c c' : String) (v : Int)
    (hne : c' ≠ c) : getCell (setCellCol r c v) c' = getCell r c' := by
  unfold setCellCol
  by_cases hany : r.any (fun p => decide (p.1 = c))
  · rw [if_pos hany]; exact getCell_overwrite_ne r c c' v hne
  · rw [if_neg hany]; exact getCell_append_ne r c c' v hne

/-- Inversion for a successful pandas column assignment. -/
theorem setCol_some_inv (df : DataFrame) (c : String) (vals : List Int)
    (out : DataFrame) (h : setCol df c vals = some out) :
    vals.length = df.length ∧
      out = List.zipWith (fun r v => setCellCol r c v) df vals := by
  unfold setCol at h
  by_cases hv : vals.length = df.length
  · rw [if_pos hv] at h
    exact ⟨hv, (Option.some.inj h).symm⟩
  · rw [if_neg hv] at h
    exact absurd h (by simp)

/-- The column written by a successful assignment reads back the assigned
values. -/
theorem colValues_setCol (df : DataFrame) (c : String) (vals : List Int)
    (h : vals.length = df.length) :
    colValues (List.zipWith (fun r v => setCellCol r c v) df vals) c =
      vals := by
  induction df generalizing vals with
  | nil =>
    cases vals with
    | nil => rfl
    | cons v vs => simp at h
  | cons r rs ih =>
    cases vals with
    | nil => simp at h
    | cons v vs =>
      simp only [List.zipWith_cons_cons, colValues, List.map_cons]
      rw [getCell_setCellCol_self]
      have hlen : vs.length = rs.length := by simpa using h
      have := ih vs hlen
      simp only [colValues] at this
      rw [this]

/-- Row-wise: a successful assignment leaves every other column of every
row (by position) unchanged. -/
theorem getCell_setCol_ne (df : DataFrame) (c : String) (vals : List Int)
    (h : vals.length = df.length) (i : Nat) (c' : String) (hne : c' ≠ c) :
    getCell
        ((List.zipWith (fun r v => setCellCol r c v) df vals).getD i []) c' =
      getCell (df.getD i []) c' := by
  induction df generalizing vals i with
  | nil =>
    cases vals with
    | nil => rfl
    | cons v vs => simp at h
  | cons r rs ih =>
    cases vals with
    | nil => simp at h
    | cons v vs =>
      cases i with
      | zero =>
        simpa using getCell_setCellCol_ne r c c' v hne
      | succ j =>
        simpa using ih vs (by simpa using h) j

/-- The post-state of `_prepare_data`: `self.all_ids` has been assigned,
and nothing else. -/
theorem prepare_fst (fc : Forecaster) (history : DataFrame)
    (schema : ForecastingSchema) (hl : Option Int) (td : Option DataFrame) :
    (fc._prepare_data history schema hl td).1 =
      { fc with all_ids := some (groupKeys history schema.id_col) } := rfl

/-- The result of `_prepare_data` is `prepareResult`. -/
theorem prepare_snd (fc : Forecaster) (history : DataFrame)
    (schema : ForecastingSchema) (hl : Option Int) (td : Option DataFrame) :
    (fc._prepare_data history schema hl td).2 =
      prepareResult fc history schema hl td := rfl

/-- `fit` on a failing preparation: the exception propagates and the
post-state is the instance with only `all_ids` mutated. -/
theorem fit_error_state (fc : Forecaster) (history : DataFrame)
    (schema : ForecastingSchema) (hl : Option Int) (td : Option DataFrame)
    (e : String) (h : prepareResult fc history schema hl td = .error e) :
    fc.fit history schema hl td =
      ({ fc with all_ids := some (groupKeys history schema.id_col) },
       .error e) := by
  unfold Forecaster.fit
  rw [prepare_snd, h, prepare_fst]

/-- `fit` on a successful preparation: the instance is marked trained and
retains the schema and prepared sequences. -/
theorem fit_ok_state (fc : Forecaster) (history : DataFrame)
    (schema : ForecastingSchema) (hl : Option Int) (td : Option DataFrame)
    (targets : List TargetSeries) (past future : Option (List CovSeries))
    (h : prepareResult fc history schema hl td = .ok (targets, past, future)) :
    fc.fit history schema hl td =
      ({ fc with
          all_ids := some (groupKeys history schema.id_col)
          _is_trained := true
          data_schema := schema
          targets_series := some targets
          past_covariates := past
          future_covariates := future }, .ok ()) := by
  unfold Forecaster.fit
  rw [prepare_snd, h, prepare_fst]

/-- Inversion of a successful `fit`. -/
theorem fit_ok_inv (fc : Forecaster) (history : DataFrame)
    (schema : ForecastingSchema) (hl : Option Int) (td : Option DataFrame)
    (fc' : Forecaster) (h : fc.fit history schema hl td = (fc', .ok ())) :
    ∃ targets past future,
      prepareResult fc history schema hl td = .ok (targets, past, future) ∧
      fc' = { fc with
          all_ids := some (groupKeys history schema.id_col)
          _is_trained := true
          data_schema := schema
          targets_series := some targets
          past_covariates := past
          future_covariates := future } := by
  cases hp : prepareResult fc history schema hl td with
  | error e =>
    rw [fit_error_state fc history schema hl td e hp] at h
    exact absurd (congrArg Prod.snd h) (by simp)
  | ok v =>
    obtain ⟨targets, past, future⟩ := v
    refine ⟨targets, past, future, rfl, ?_⟩
    rw [fit_ok_state fc history schema hl td targets past future hp] at h
    exact (congrArg Prod.fst h).symm

/-- Inversion of a successful `prepareResult`: the targets are the target
column values of the truncated series groups. -/
theorem prepareResult_ok_inv (fc : Forecaster) (history : DataFrame)
    (schema : ForecastingSchema) (hl : Option Int) (td : Option DataFrame)
    (targets : List TargetSeries) (p f : Option (List CovSeries))
    (h : prepareResult fc history schema hl td = .ok (targets, p, f)) :
    ∃ truncated,
      mapExcept (truncToHistory fc hl)
          (seriesGroups history schema.id_col) = .ok truncated ∧
      targets = truncated.map
        (fun s => s.map (fun r => getCell r schema.target)) := by
  unfold prepareResult at h
  cases hm : mapExcept (truncToHistory fc hl)
      (seriesGroups history schema.id_col) with
  | error e => rw [hm] at h; exact absurd h (by simp)
  | ok truncated =>
    rw [hm] at h
    simp only at h
    cases hf : futurePart fc schema hl (groupKeys history schema.id_col)
        (seriesGroups history schema.id_col) td with
    | error e => rw [hf] at h; exact absurd h (by simp)
    | ok future =>
      rw [hf] at h
      simp only [Except.ok.injEq, Prod.mk.injEq] at h
      exact ⟨truncated, rfl, h.1.symm⟩

/-- Inversion of a successful `predict`. -/
theorem predict_ok_inv (fc : Forecaster) (td : DataFrame) (col : String)
    (df : DataFrame) (h : (fc.predict td col).2 = .ok df) :
    fc._is_trained = true ∧
    setCol td col (predictionValues fc) = some df ∧
    (fc.predict td col).1 = df := by
  unfold Forecaster.predict at h ⊢
  by_cases ht : fc._is_trained
  · rw [if_pos ht] at h ⊢
    cases hs : setCol td col (predictionValues fc) with
    | none => rw [hs] at h; exact Except.noConfusion h
    | some d =>
      rw [hs] at h
      change Except.ok d = Except.ok df at h
      cases h
      exact ⟨ht, rfl, rfl⟩
  · rw [if_neg ht] at h
    exact Except.noConfusion h

/-- `predict` leaves `test_data` unchanged on failure. -/
theorem predict_error_state (fc : Forecaster) (td : DataFrame) (col : String)
    (e : String) (h : (fc.predict td col).2 = .error e) :
    (fc.predict td col).1 = td := by
  unfold Forecaster.predict at h ⊢
  by_cases ht : fc._is_trained
  · rw [if_pos ht] at h ⊢
    cases hs : setCol td col (predictionValues fc) with
    | none => rfl
    | some d => rw [hs] at h; exact Except.noConfusion h
  · rw [if_neg ht]

theorem error_ne_error {α : Type} (a b : String) (h : a ≠ b) :
    (Except.error a : Except String α) ≠ Except.error b := by
  intro hc
  exact h (by injection hc)

/-! ## Claim theorems -/

/-- C2: calling `predict` or `save` on a constructed-but-unfit `Forecaster`
always fails with the not-fitted error, and a fit instance never raises
that error from these operations. -/
theorem C2_not_fitted_guard (fc : Forecaster) (td : DataFrame) (col : String)
    (dir : String) (fs : FileSystem) :
    (fc._is_trained = false →
      (fc.predict td col).2 = .error notFittedMsg ∧
      (fc.save dir fs).2 = .error notFittedMsg) ∧
    (fc._is_trained = true →
      (fc.predict td col).2 ≠ .error notFittedMsg ∧
      (fc.save dir fs).2 ≠ .error notFittedMsg) := by
  constructor
  · intro h
    constructor
    · unfold Forecaster.predict
      rw [h]
      rfl
    · unfold Forecaster.save
      rw [h]
      rfl
  · intro h
    constructor
    · unfold Forecaster.predict
      rw [h]
      cases hs : setCol td col (predictionValues fc) with
      | none =>
        show (Except.error lengthErrorMsg : Except String DataFrame) ≠ _
        exact error_ne_error _ _ (by decide)
      | some d => exact fun hc => Except.noConfusion hc
    · unfold Forecaster.save
      rw [h]
      by_cases hd : fs.dirs dir
      · rw [if_pos hd]
        exact fun hc => Except.noConfusion hc
      · rw [if_neg hd]
        show (Except.error fileNotFoundMsg : Except String Unit) ≠ _
        exact error_ne_error _ _ (by decide)

/-- Witness for C2 at concrete instances: an unfit forecaster's predict
raises the not-fitted error, and a fit forecaster's save does not. -/
theorem C2_not_fitted_guard_witness :
    (wFc.predict wTd6 "pred").2 = Except.error notFittedMsg ∧
    (wFcT.save "mdir" emptyFS).2 ≠ Except.error notFittedMsg := by
  constructor
  · exact ((C2_not_fitted_guard wFc wTd6 "pred" "mdir" emptyFS).1 rfl).1
  · exact ((C2_not_fitted_guard wFcT wTd6 "pred" "mdir" emptyFS).2 rfl).2

/-- C4: a schema with no past covariates forces the past-covariate lag
configuration to absent regardless of the constructor argument, likewise
for future covariates, and the wrapped model is constructed with the
forced values. -/
theorem C4_covariate_lags_forced (pf : PredictFn)
    (schema : ForecastingSchema) (lags lpc : Option LagVal)
    (lfc : Option FutLagVal) (ocl : Option Int) (lik : Option String)
    (q : Option (List Rat)) (mm : Option Bool) (usc : Bool)
    (rs hk : Option Int) :
    (schema.past_covariates = [] →
      (Forecaster.init pf schema lags lpc lfc ocl lik q mm usc rs
          hk).lags_past_covariates = none ∧
      (Forecaster.init pf schema lags lpc lfc ocl lik q mm usc rs
          hk).model.lags_past_covariates = none) ∧
    (schema.future_covariates = [] →
      (Forecaster.init pf schema lags lpc lfc ocl lik q mm usc rs
          hk).lags_future_covariates = none ∧
      (Forecaster.init pf schema lags lpc lfc ocl lik q mm usc rs
          hk).model.lags_future_covariates = none) := by
  constructor <;> intro h <;> constructor <;> simp [Forecaster.init, h]

/-- Witness for C4 at a concrete schema with no covariates and explicit
non-absent lag arguments. -/
theorem C4_covariate_lags_forced_witness :
    wSchema.past_covariates = [] ∧ wSchema.future_covariates = [] ∧
    (Forecaster.init zeroPF wSchema none (some (.int 3)) (some (.tuple 5 1))
        none none none (some true) true (some 0)
        none).lags_past_covariates = none ∧
    (Forecaster.init zeroPF wSchema none (some (.int 3)) (some (.tuple 5 1))
        none none none (some true) true (some 0)
        none).model.lags_future_covariates = none := by
  refine ⟨rfl, rfl, ?_, ?_⟩
  · exact ((C4_covariate_lags_forced zeroPF wSchema none (some (.int 3))
      (some (.tuple 5 1)) none none none (some true) true (some 0)
      none).1 rfl).1
  · exact ((C4_covariate_lags_forced zeroPF wSchema none (some (.int 3))
      (some (.tuple 5 1)) none none none (some true) true (some 0)
      none).2 rfl).2

theorem prepareResult_mapError (fc : Forecaster) (history : DataFrame)
    (schema : ForecastingSchema) (hl : Option Int) (td : Option DataFrame)
    (e : String)
    (hm : mapExcept (truncToHistory fc hl)
        (seriesGroups history schema.id_col) = .error e) :
    prepareResult fc history schema hl td = .error e := by
  unfold prepareResult
  rw [hm]

theorem prepareResult_futError (fc : Forecaster) (history : DataFrame)
    (schema : ForecastingSchema) (hl : Option Int) (td : Option DataFrame)
    (truncated : List DataFrame) (e : String)
    (hm : mapExcept (truncToHistory fc hl)
        (seriesGroups history schema.id_col) = .ok truncated)
    (hf : futurePart fc schema hl (groupKeys history schema.id_col)
        (seriesGroups history schema.id_col) td = .error e) :
    prepareResult fc history schema hl td = .error e := by
  unfold prepareResult
  rw [hm]
  simp only [hf]

/-- With a truthiness-consistent history-length configuration, the
truncation step always succeeds. -/
theorem truncToHistory_ok (fc : Forecaster) (hl : Option Int)
    (hcons : truthy hl = true → fc.history_length ≠ none) (s : DataFrame) :
    ∃ b, truncToHistory fc hl s = .ok b := by
  unfold truncToHistory
  by_cases ht : truthy hl
  · rw [if_pos ht]
    cases hh : fc.history_length with
    | none => exact absurd hh (hcons ht)
    | some m => exact ⟨_, rfl⟩
  · rw [if_neg ht]
    exact ⟨s, rfl⟩

/-- C3: with future covariates declared in the schema and no test data
supplied, fit always fails, and — whenever the orthogonal
`history_length` guard/attribute mismatch (claim C6) does not fire first —
it fails precisely with the missing-test-data error raised by
`test_dataframe.groupby` on `None`. -/
theorem C3_fit_requires_test_data (fc : Forecaster) (history : DataFrame)
    (schema : ForecastingSchema) (hl : Option Int)
    (hFut : schema.future_covariates ≠ []) :
    (∃ e, (fc.fit history schema hl none).2 = .error e) ∧
    ((truthy hl = true → fc.history_length ≠ none) →
      (fc.fit history schema hl none).2 = .error attrErrorMsg) := by
  have hfp : futurePart fc schema hl (groupKeys history schema.id_col)
      (seriesGroups history schema.id_col) none = .error attrErrorMsg := by
    unfold futurePart
    rw [if_neg hFut]
  constructor
  · cases hm : mapExcept (truncToHistory fc hl)
        (seriesGroups history schema.id_col) with
    | error e =>
      refine ⟨e, ?_⟩
      rw [fit_error_state fc history schema hl none e
        (prepareResult_mapError fc history schema hl none e hm)]
    | ok truncated =>
      refine ⟨attrErrorMsg, ?_⟩
      rw [fit_error_state fc history schema hl none attrErrorMsg
        (prepareResult_futError fc history schema hl none truncated
          attrErrorMsg hm hfp)]
  · intro hcons
    obtain ⟨truncated, hm⟩ := mapExcept_ok_of_forall _ _
      (fun s _ => truncToHistory_ok fc hl hcons s)
    rw [fit_error_state fc history schema hl none attrErrorMsg
      (prepareResult_futError fc history schema hl none truncated
        attrErrorMsg hm hfp)]

/-- Witness for C3: fitting the concrete future-covariate forecaster
without test data yields the missing-test-data error. -/
theorem C3_fit_requires_test_data_witness :
    (wFcFut.fit wFutHistory wFutSchema none none).2 =
      Except.error attrErrorMsg := by
  exact (C3_fit_requires_test_data wFcFut wFutHistory wFutSchema none
    (by decide)).2 (fun h => absurd h (by decide))

/-- C5 counterexample: on a history whose ids first appear in the order
`[2, 1]`, fit retains the series order `[1, 2]` — the distinct ids in
ascending order, not the order of first appearance. -/
theorem C5_counterexample :
    (wFc.fit wHistory wSchema none none).1.all_ids = some [1, 2] ∧
    firstAppearance (wHistory.map (fun r => getCell r wSchema.id_col)) =
      [2, 1] ∧
    (wFc.fit wHistory wSchema none none).1.all_ids ≠
      some (firstAppearance
        (wHistory.map (fun r => getCell r wSchema.id_col))) := by
  refine ⟨rfl, rfl, by decide⟩

/-- C5 (amended): fit partitions the history rows by series id, and the
retained series order is the distinct series ids in ascending order
(pandas `groupby` sorts group keys), not the order of first appearance. -/
theorem C5_series_order_sorted (fc : Forecaster) (history : DataFrame)
    (schema : ForecastingSchema) (hl : Option Int) (td : Option DataFrame) :
    ∃ l, (fc.fit history schema hl td).1.all_ids = some l ∧
      List.Sorted (fun a b => a ≤ b) l ∧
      l.Perm ((history.map (fun r => getCell r schema.id_col)).dedup) := by
  refine ⟨groupKeys history schema.id_col, ?_, ?_, ?_⟩
  · cases hp : prepareResult fc history schema hl td with
    | error e => rw [fit_error_state fc history schema hl td e hp]
    | ok v =>
      obtain ⟨targets, past, future⟩ := v
      rw [fit_ok_state fc history schema hl td targets past future hp]
  · exact List.sorted_insertionSort _ _
  · exact List.perm_insertionSort _ _

/-- C6 (code bug): the truncation guard in `_prepare_data` tests the
`history_length` parameter for truthiness but slices with the
`self.history_length` attribute.  With the attribute unset
(`wFc.history_length = none`), fit with a positive `history_length`
argument of 5 raises a `TypeError` instead of truncating; with the
attribute set to 3, the 5-row group is truncated to its last 3 rows —
not to the last 5 rows the argument requires. -/
theorem C6_truncation_uses_attribute :
    wFc.history_length = none ∧
    (wFc.fit wHist5 wSchema (some 5) none).2 = Except.error typeErrorMsg ∧
    wFcHL3.history_length = some 3 ∧
    (wFcHL3.fit wHist5 wSchema (some 5) none).2 = Except.ok () ∧
    (wFcHL3.fit wHist5 wSchema (some 5) none).1.targets_series =
      some [[3, 4, 5]] := by
  exact ⟨rfl, rfl, rfl, rfl, rfl⟩

/-- C9 counterexample: with future covariates declared and no test data,
fit fails but the instance's cached `all_ids` has been reassigned by the
failing call — fit is not all-or-nothing on the instance state. -/
theorem C9_counterexample :
    (wFcFut.fit wFutHistory wFutSchema none none).2 =
      Except.error attrErrorMsg ∧
    wFcFut.all_ids = none ∧
    (wFcFut.fit wFutHistory wFutSchema none none).1.all_ids = some [1] ∧
    (wFcFut.fit wFutHistory wFutSchema none none).1.all_ids ≠
      wFcFut.all_ids := by
  refine ⟨rfl, rfl, rfl, by decide⟩

/-- C9 (amended): when fit fails, the trained flag, retained series,
covariates, schema and wrapped model are unchanged — only the cached
`all_ids` may have been reassigned before the failure — and when predict
fails, the `test_data` dataframe is unchanged. -/
theorem C9_failure_effects (fc : Forecaster) (history : DataFrame)
    (schema : ForecastingSchema) (hl : Option Int) (td : Option DataFrame)
    (test_data : DataFrame) (col : String) :
    (∀ e, (fc.fit history schema hl td).2 = .error e →
      (fc.fit history schema hl td).1._is_trained = fc._is_trained ∧
      (fc.fit history schema hl td).1.targets_series = fc.targets_series ∧
      (fc.fit history schema hl td).1.past_covariates = fc.past_covariates ∧
      (fc.fit history schema hl td).1.future_covariates =
        fc.future_covariates ∧
      (fc.fit history schema hl td).1.data_schema = fc.data_schema ∧
      (fc.fit history schema hl td).1.model = fc.model) ∧
    (∀ e, (fc.predict test_data col).2 = .error e →
      (fc.predict test_data col).1 = test_data) := by
  constructor
  · intro e he
    cases hp : prepareResult fc history schema hl td with
    | error e2 =>
      rw [fit_error_state fc history schema hl td e2 hp]
      exact ⟨rfl, rfl, rfl, rfl, rfl, rfl⟩
    | ok v =>
      obtain ⟨targets, past, future⟩ := v
      rw [fit_ok_state fc history schema hl td targets past future hp] at he
      exact Except.noConfusion he
  · intro e he
    exact predict_error_state fc test_data col e he

/-- Witness for C9 (amended) at concrete failing calls: the failed fit
left `targets_series` unchanged, and the failed predict left the test
dataframe unchanged. -/
theorem C9_failure_effects_witness :
    (wFcFut.fit wFutHistory wFutSchema none none).1.targets_series =
      wFcFut.targets_series ∧
    (wFc.predict wTd6 "pred").1 = wTd6 := by
  constructor
  · exact ((C9_failure_effects wFcFut wFutHistory wFutSchema none none
      wTd6 "pred").1 attrErrorMsg rfl).2.1
  · exact (C9_failure_effects wFc wFutHistory wFutSchema none none
      wTd6 "pred").2 notFittedMsg rfl

/-- C1: after a successful fit on a history with `N` distinct series ids,
the flattened prediction block has exactly `N × forecast_length` values
(under the darts contract for the wrapped model's predict), and any
successful predict writes exactly that block into the output column. -/
theorem C1_prediction_block_size (fc : Forecaster) (history : DataFrame)
    (schema : ForecastingSchema) (hl : Option Int) (td : Option DataFrame)
    (fc' : Forecaster) (hpf : PredictContract fc.model.predictFn)
    (hfit : fc.fit history schema hl td = (fc', .ok ())) :
    (predictionValues fc').length =
      ((history.map (fun r => getCell r schema.id_col)).dedup).length *
        schema.forecast_length ∧
    ∀ td2 col df, (fc'.predict td2 col).2 = .ok df →
      colValues df col = predictionValues fc' := by
  obtain ⟨targets, past, future, hp, hfc⟩ :=
    fit_ok_inv fc history schema hl td fc' hfit
  obtain ⟨truncated, hm, htargets⟩ :=
    prepareResult_ok_inv fc history schema hl td targets past future hp
  constructor
  · have hlen_t : targets.length =
        (seriesGroups history schema.id_col).length := by
      rw [htargets, List.length_map]
      exact mapExcept_ok_length _ _ _ hm
    have hlen_sg : (seriesGroups history schema.id_col).length =
        (groupKeys history schema.id_col).length := List.length_map _ _
    subst hfc
    show (fc.model.predictFn schema.forecast_length targets past
        future).flatten.length = _
    have hc := hpf schema.forecast_length targets past future
    rw [flatten_const_length _ schema.forecast_length hc.2, hc.1, hlen_t,
      hlen_sg, groupKeys_length]
  · intro td2 col df hpred
    obtain ⟨ht, hset, _⟩ := predict_ok_inv fc' td2 col df hpred
    obtain ⟨hvlen, hout⟩ :=
      setCol_some_inv td2 col (predictionValues fc') df hset
    rw [hout]
    exact colValues_setCol td2 col (predictionValues fc') hvlen

/-- Witness for C1 at the concrete fit `wFcT`: 2 series ids × horizon 3 =
6 predicted values. -/
theorem C1_prediction_block_size_witness :
    (predictionValues wFcT).length = 6 := by
  have h := C1_prediction_block_size wFc wHistory wSchema none none wFcT
    zeroPF_contract rfl
  exact h.1.trans (by decide)

theorem save_ok_of_dirs (fc : Forecaster) (dir : String) (fs1 : FileSystem)
    (h : fc._is_trained = true) (hd1 : fs1.dirs dir = true) :
    fc.save dir fs1 =
      ({ fs1 with files := fun p =>
          if p = joinPath dir PREDICTOR_FILE_NAME then some fc
          else fs1.files p }, .ok ()) := by
  unfold Forecaster.save
  rw [h, hd1]
  rfl

/-- Normal form of the saving entry point on a fit instance: the target
directory exists afterwards, and exactly the blob path is (re)bound. -/
theorem save_predictor_model_eq (fc : Forecaster) (dir : String)
    (fs : FileSystem) (h : fc._is_trained = true) :
    save_predictor_model fc dir fs =
      ({ dirs := fun d => if d = dir then true else fs.dirs d,
         files := fun p =>
           if p = joinPath dir PREDICTOR_FILE_NAME then some fc
           else fs.files p }, .ok ()) := by
  unfold save_predictor_model
  by_cases hd : fs.dirs dir = true
  · rw [if_pos hd, save_ok_of_dirs fc dir fs h hd]
    have hdirs : fs.dirs = fun d => if d = dir then true else fs.dirs d := by
      funext d
      by_cases hdd : d = dir
      · rw [if_pos hdd, hdd, hd]
      · rw [if_neg hdd]
    simp only [Prod.mk.injEq]
    constructor
    · rw [FileSystem.mk.injEq]
      exact ⟨hdirs, rfl⟩
    · trivial
  · rw [if_neg hd,
      save_ok_of_dirs fc dir
        { fs with dirs := fun d => if d = dir then true else fs.dirs d } h
        (by simp)]

/-- C7: for a fit forecaster, the save entry point creates the directory
when absent and writes exactly one file, named `predictor.joblib`, inside
it (every other path and directory is untouched); the load entry point
reads that same file back from the given directory. -/
theorem C7_save_writes_one_file (fc : Forecaster) (dir : String)
    (fs : FileSystem) (h : fc._is_trained = true) :
    (save_predictor_model fc dir fs).2 = .ok () ∧
    (save_predictor_model fc dir fs).1.dirs dir = true ∧
    (save_predictor_model fc dir fs).1.files
        (joinPath dir PREDICTOR_FILE_NAME) = some fc ∧
    (∀ p, p ≠ joinPath dir PREDICTOR_FILE_NAME →
      (save_predictor_model fc dir fs).1.files p = fs.files p) ∧
    (∀ d, d ≠ dir → (save_predictor_model fc dir fs).1.dirs d = fs.dirs d) ∧
    load_predictor_model dir (save_predictor_model fc dir fs).1 =
      .ok fc := by
  rw [save_predictor_model_eq fc dir fs h]
  refine ⟨rfl, by simp, by simp, ?_, ?_, ?_⟩
  · intro p hp
    simp [hp]
  · intro d hdne
    simp [hdne]
  · unfold load_predictor_model Forecaster.load
    simp

/-- Witness for C7 at a concrete fit forecaster and empty file system. -/
theorem C7_save_writes_one_file_witness :
    (save_predictor_model wFcT "mdir" emptyFS).1.files
        (joinPath "mdir" PREDICTOR_FILE_NAME) = some wFcT ∧
    (save_predictor_model wFcT "mdir" emptyFS).1.dirs "mdir" = true := by
  have h := C7_save_writes_one_file wFcT "mdir" emptyFS rfl
  exact ⟨h.2.2.1, h.2.1⟩

/-- C8: save then load on a fit instance yields an instance in the fit
state whose predict output (post-state and result) on the same test data
is identical to the original's. -/
theorem C8_save_load_roundtrip (fc : Forecaster) (dir : String)
    (fs : FileSystem) (h : fc._is_trained = true) :
    load_predictor_model dir (save_predictor_model fc dir fs).1 = .ok fc ∧
    (∀ fc2,
      load_predictor_model dir (save_predictor_model fc dir fs).1 =
        .ok fc2 →
      fc2._is_trained = true ∧
      ∀ td col, fc2.predict td col = fc.predict td col) := by
  have hl : load_predictor_model dir (save_predictor_model fc dir fs).1 =
      .ok fc := by
    rw [save_predictor_model_eq fc dir fs h]
    unfold load_predictor_model Forecaster.load
    simp
  refine ⟨hl, fun fc2 h2 => ?_⟩
  rw [hl] at h2
  have hfc2 : fc = fc2 := by injection h2
  subst hfc2
  exact ⟨h, fun td col => rfl⟩

/-- Witness for C8 at a concrete fit forecaster. -/
theorem C8_save_load_roundtrip_witness :
    load_predictor_model "mdir"
        (save_predictor_model wFcT "mdir" emptyFS).1 = Except.ok wFcT := by
  exact (C8_save_load_roundtrip wFcT "mdir" emptyFS rfl).1

/-- C10: a successful predict returns the mutated `test_data` itself,
changes only the prediction column — row count, positional row contents
at every other column are unchanged — and the written forecast values
depend only on the fitted state, not on `test_data`'s cell contents. -/
theorem C10_predict_frame_effect (fc : Forecaster) (td : DataFrame)
    (col : String) (df : DataFrame) (h : (fc.predict td col).2 = .ok df) :
    (fc.predict td col).1 = df ∧
    df.length = td.length ∧
    (∀ i c, c ≠ col →
      getCell (df.getD i []) c = getCell (td.getD i []) c) ∧
    colValues df col = predictionValues fc ∧
    (∀ td2 df2, (fc.predict td2 col).2 = .ok df2 →
      colValues df2 col = colValues df col) := by
  obtain ⟨ht, hset, hret⟩ := predict_ok_inv fc td col df h
  obtain ⟨hvlen, hout⟩ := setCol_some_inv td col (predictionValues fc) df hset
  have hcol : colValues df col = predictionValues fc := by
    rw [hout]
    exact colValues_setCol td col _ hvlen
  refine ⟨hret, ?_, ?_, hcol, ?_⟩
  · rw [hout, List.length_zipWith, hvlen]
    exact Nat.min_self _
  · intro i c hc
    rw [hout]
    exact getCell_setCol_ne td col _ hvlen i c hc
  · intro td2 df2 h2
    obtain ⟨_, hset2, _⟩ := predict_ok_inv fc td2 col df2 h2
    obtain ⟨hvlen2, hout2⟩ := setCol_some_inv td2 col _ df2 hset2
    rw [hout2, colValues_setCol td2 col _ hvlen2, hcol]

/-- Witness for C10 at the concrete fit forecaster and a 6-row test
dataframe: the prediction column reads back the prediction block and the
id column is untouched. -/
theorem C10_predict_frame_effect_witness :
    colValues ((wFcT.predict wTd6 "pred").1) "pred" =
      predictionValues wFcT ∧
    getCell (((wFcT.predict wTd6 "pred").1).getD 0 []) "id" =
      getCell (wTd6.getD 0 []) "id" := by
  have h := C10_predict_frame_effect wFcT wTd6 "pred"
    ((wFcT.predict wTd6 "pred").1) rfl
  exact ⟨h.2.2.2.1, h.2.2.1 0 "id" (by decide)⟩

end PredictorModel
